import Mathlib

/-!
Verification of `src/reject.rs` from the `apikit` repository: the `HTTPError`
sum type, its `Display` implementation, its constructors, its untagged
serialization shape, and its `IntoResponse` conversion (status, body, and
emitted log records).
-/

/-- `const MESSAGE_NOT_FOUND: &str = "not found";` -/
def MESSAGE_NOT_FOUND : String := "not found"

/-- `const MESSAGE_FORBIDDEN: &str = "forbidden";` -/
def MESSAGE_FORBIDDEN : String := "forbidden"

/-- `const MESSAGE_INTERNAL_SERVER_ERROR: &str = "internal server error";` -/
def MESSAGE_INTERNAL_SERVER_ERROR : String := "internal server error"

/-- The `axum::http::StatusCode` constants used by `reject.rs`, as their
numeric status codes. -/
def StatusCode.BAD_REQUEST : Nat := 400

def StatusCode.FORBIDDEN : Nat := 403

def StatusCode.NOT_FOUND : Nat := 404

def StatusCode.INTERNAL_SERVER_ERROR : Nat := 500

/-- The `HTTPError` enum of `reject.rs`:
`BadRequest { error: String }`, `Forbidden`, `NotFound`,
`InternalServerError { error: String, backtrace: Option<String> }`. -/
inductive HTTPError where
  | BadRequest (error : String)
  | Forbidden
  | NotFound
  | InternalServerError (error : String) (backtrace : Option String)
deriving DecidableEq, Repr

namespace HTTPError

/-- The `Display for HTTPError` implementation: the string written by `fmt`. -/
def fmt : HTTPError → String
  | .BadRequest e => "bad request: " ++ e
  | .Forbidden => "forbidden"
  | .NotFound => "not found"
  | .InternalServerError e (some b) => "internal server error: " ++ e ++ "\n" ++ b
  | .InternalServerError e none => "internal server error: " ++ e

/-- `HTTPError::bad_request`: builds `BadRequest { error: s.to_string() }`.
The `S: ToString` generic is instantiated at text inputs, where
`to_string` is the identity. -/
def bad_request (s : String) : HTTPError := .BadRequest s

/-- `HTTPError::internal_server_error`: builds
`InternalServerError { error: e.to_string(), backtrace: None }`
(backtrace capture is a TODO in the source). -/
def internal_server_error (e : String) : HTTPError :=
  .InternalServerError e none

end HTTPError

/-- An HTTP response as far as this module determines it: a status code and a
body message. -/
structure Response where
  status : Nat
  body : String
deriving DecidableEq, Repr

/-- A log record emitted through `tracing`: its level and its message text. -/
structure LogRecord where
  level : String
  text : String
deriving DecidableEq, Repr

/-- Modelled from the spec: the external `reply::error` helper
(module `crate::reply`, absent from the provided sources) builds a response
from a body message and a status code; per the spec, this component "only
decides *which* status and *which* message to pass", and the body carries
the given message verbatim. -/
def reply.error (msg : String) (status : Nat) : Response :=
  { status := status, body := msg }

/-- `IntoResponse::into_response for HTTPError`: the produced response paired
with the list of log records emitted during the conversion
(`tracing::error!` calls, in order). -/
def HTTPError.into_response : HTTPError → Response × List LogRecord
  | .BadRequest e => (reply.error e StatusCode.BAD_REQUEST, [])
  | .Forbidden => (reply.error MESSAGE_FORBIDDEN StatusCode.FORBIDDEN, [])
  | .NotFound => (reply.error MESSAGE_NOT_FOUND StatusCode.NOT_FOUND, [])
  | .InternalServerError e bt =>
      (reply.error MESSAGE_INTERNAL_SERVER_ERROR StatusCode.INTERNAL_SERVER_ERROR,
        match bt with
        | some b => [{ level := "error", text := e ++ "\n" ++ b }]
        | none => [{ level := "error", text := e }])

/-- `charsPrefixB needle hay` is true when `needle` is a prefix of `hay`
(character lists). -/
def charsPrefixB : List Char → List Char → Bool
  | [], _ => true
  | _ :: _, [] => false
  | a :: as, b :: bs => a == b && charsPrefixB as bs

/-- `charsSubB needle hay` is true when `needle` occurs contiguously inside
`hay` (character lists). -/
def charsSubB : List Char → List Char → Bool
  | needle, [] => needle.isEmpty
  | needle, c :: cs => charsPrefixB needle (c :: cs) || charsSubB needle cs

/-- `strContains s sub` is true when `sub` occurs verbatim inside `s`. -/
def strContains (s sub : String) : Bool := charsSubB sub.data s.data

theorem charsPrefixB_refl (l : List Char) : charsPrefixB l l = true := by
  induction l with
  | nil => rfl
  | cons a as ih => simp [charsPrefixB, ih]

theorem charsSubB_refl (l : List Char) : charsSubB l l = true := by
  cases l with
  | nil => rfl
  | cons a as => simp [charsSubB, charsPrefixB_refl]

theorem strContains_refl (s : String) : strContains s s = true :=
  charsSubB_refl s.data

/-- A minimal structured-data (JSON-like) value type, target of serialization. -/
inductive Json where
  | null
  | str (s : String)
  | obj (fields : List (String × Json))
deriving Repr

/-- Modelled from the spec: the `Serialize` impl derived for `HTTPError` with
`#[serde(untagged)]` (the derived code is not in the provided sources). Per
the spec, the variant tag is not emitted: unit variants serialize as an
empty/null payload and struct variants serialize exactly their payload
fields. -/
def HTTPError.serialize : HTTPError → Json
  | .BadRequest e => .obj [("error", .str e)]
  | .Forbidden => .null
  | .NotFound => .null
  | .InternalServerError e bt =>
      .obj [("error", .str e),
            ("backtrace", match bt with | some b => .str b | none => .null)]

/-- C1 counterexample: the claim "the body never equals `e`" fails at the
concrete input `e = "internal server error"`, where the fixed body is equal
to `e`. -/
theorem internal_server_error_body_eq_input_counterexample :
    (HTTPError.internal_server_error "internal server error").into_response.1.body
      = "internal server error" := rfl

/-- C1 (amended): for every text `e`, converting `internal_server_error e`
yields status 500 with body exactly `"internal server error"` (a fixed
literal, independent of `e`, so it coincides with `e` only when `e` is that
literal), and exactly one emitted log record contains `e`. -/
theorem internal_server_error_response (e : String) :
    (HTTPError.internal_server_error e).into_response.1.status = 500 ∧
    (HTTPError.internal_server_error e).into_response.1.body
      = "internal server error" ∧
    ((HTTPError.internal_server_error e).into_response.2.filter
        (fun l => strContains l.text e)).length = 1 := by
  refine ⟨rfl, rfl, ?_⟩
  simp [HTTPError.into_response, HTTPError.internal_server_error,
    List.filter, strContains_refl]

/-- C2: for every text `s`, converting `bad_request s` yields status 400 with
a body that is `s` itself, hence contains `s` verbatim. -/
theorem bad_request_response (s : String) :
    (HTTPError.bad_request s).into_response.1.status = 400 ∧
    (HTTPError.bad_request s).into_response.1.body = s ∧
    strContains (HTTPError.bad_request s).into_response.1.body s = true := by
  refine ⟨rfl, rfl, ?_⟩
  simpa [HTTPError.into_response, HTTPError.bad_request, reply.error] using
    strContains_refl s

/-- C3: `Forbidden` always converts to status 403 with body exactly
`"forbidden"` and no log, and `NotFound` to status 404 with body exactly
`"not found"` and no log; the conversion takes no other input. -/
theorem forbidden_not_found_response :
    HTTPError.Forbidden.into_response
      = ({ status := 403, body := "forbidden" }, []) ∧
    HTTPError.NotFound.into_response
      = ({ status := 404, body := "not found" }, []) :=
  ⟨rfl, rfl⟩

/-- C4: the full `Display` contract: `"bad request: {m}"`, `"forbidden"`,
`"not found"`, `"internal server error: {m}\n{b}"` with a backtrace, and
`"internal server error: {m}"` without. -/
theorem display_contract (m b : String) :
    (HTTPError.BadRequest m).fmt = "bad request: " ++ m ∧
    HTTPError.Forbidden.fmt = "forbidden" ∧
    HTTPError.NotFound.fmt = "not found" ∧
    (HTTPError.InternalServerError m (some b)).fmt
      = "internal server error: " ++ m ++ "\n" ++ b ∧
    (HTTPError.InternalServerError m none).fmt
      = "internal server error: " ++ m :=
  ⟨rfl, rfl, rfl, rfl, rfl⟩

/-- C5: the `internal_server_error` constructor always sets the backtrace
field to `none`, and consequently its `Display` rendering is exactly
`"internal server error: {x}"`. -/
theorem internal_server_error_constructor_display (x : String) :
    HTTPError.internal_server_error x = HTTPError.InternalServerError x none ∧
    (HTTPError.internal_server_error x).fmt = "internal server error: " ++ x :=
  ⟨rfl, rfl⟩

/-- C6: under untagged serialization, `Forbidden` and `NotFound` serialize to
the same null/empty payload with no distinguishing field, while
`BadRequest {error := x}` serializes to an object exposing only the field
`error` with value `x`. -/
theorem untagged_serialization (x : String) :
    HTTPError.Forbidden.serialize = HTTPError.NotFound.serialize ∧
    HTTPError.Forbidden.serialize = Json.null ∧
    (HTTPError.BadRequest x).serialize = Json.obj [("error", Json.str x)] :=
  ⟨rfl, rfl, rfl⟩

/-- C7: converting `BadRequest`, `Forbidden` or `NotFound` emits no log
record; converting `InternalServerError` emits exactly one record, and it is
at error level. -/
theorem logging_frame (e m : String) (bt : Option String) :
    (HTTPError.BadRequest e).into_response.2 = [] ∧
    HTTPError.Forbidden.into_response.2 = [] ∧
    HTTPError.NotFound.into_response.2 = [] ∧
    (HTTPError.InternalServerError m bt).into_response.2.length = 1 ∧
    ∀ l ∈ (HTTPError.InternalServerError m bt).into_response.2,
      l.level = "error" := by
  refine ⟨rfl, rfl, rfl, ?_, ?_⟩ <;> cases bt <;>
    simp [HTTPError.into_response]

/-- C8: the response produced for an `InternalServerError` does not depend on
its `error` or `backtrace` payload: any two such values convert to the same
status and body. -/
theorem internal_server_error_noninterference
    (e₁ e₂ : String) (b₁ b₂ : Option String) :
    (HTTPError.InternalServerError e₁ b₁).into_response.1
      = (HTTPError.InternalServerError e₂ b₂).into_response.1 := by
  cases b₁ <;> cases b₂ <;> rfl

/-- C9 counterexample: at the value `InternalServerError "e" (some "b")`, the
logged text is `"e\nb"` while the `Display` rendering is
`"internal server error: e\nb"`, so the logged text is not identical to the
`Display` rendering as the claim states. -/
theorem log_text_display_counterexample :
    (HTTPError.InternalServerError "e" (some "b")).into_response.2
      = [{ level := "error", text := "e\nb" }] ∧
    (HTTPError.InternalServerError "e" (some "b")).fmt
      = "internal server error: e\nb" ∧
    ("e\nb" : String) ≠ "internal server error: e\nb" :=
  ⟨rfl, rfl, by decide⟩

/-- C9 (amended): with a present backtrace the logged text is exactly the
error text, a newline, then the backtrace text; with an absent backtrace it
is exactly the error text; in both cases the `Display` rendering is the
literal `"internal server error: "` followed by the logged text. -/
theorem log_text_relation (e b : String) :
    (HTTPError.InternalServerError e (some b)).into_response.2
      = [{ level := "error", text := e ++ "\n" ++ b }] ∧
    (HTTPError.InternalServerError e none).into_response.2
      = [{ level := "error", text := e }] ∧
    (HTTPError.InternalServerError e (some b)).fmt
      = "internal server error: " ++ (e ++ "\n" ++ b) ∧
    (HTTPError.InternalServerError e none).fmt
      = "internal server error: " ++ e := by
  refine ⟨rfl, rfl, ?_, rfl⟩
  simp [HTTPError.fmt, String.append_assoc]

/-- C10: for the unit variants, the `Display` rendering coincides exactly
with the body message passed to the response conversion: `"forbidden"` for
`Forbidden` and `"not found"` for `NotFound`. -/
theorem unit_variant_display_matches_body :
    HTTPError.Forbidden.fmt = MESSAGE_FORBIDDEN ∧
    HTTPError.Forbidden.into_response.1.body = MESSAGE_FORBIDDEN ∧
    HTTPError.NotFound.fmt = MESSAGE_NOT_FOUND ∧
    HTTPError.NotFound.into_response.1.body = MESSAGE_NOT_FOUND :=
  ⟨rfl, rfl, rfl, rfl⟩
